import Mathlib

/-
Verification of the KismetRest streaming REST/JSON client (KismetRest.py).

The embedding models the Python module shallowly:
  * JSON documents are an inductive `Json` type; the external `json.loads`
    call is abstracted by `Line`, which records whether a raw response line
    parses (`Line.good j`) or fails to parse (`Line.bad raw`).
  * The `requests` library is abstracted by `HttpOutcome`: a request either
    fails at the network level before any response exists (`netFail`) or
    yields a response with a status code, an optional `Set-Cookie` value for
    the `KISMET` session cookie (which the library stores into the in-memory
    cookie jar for every response it receives), and a body.
  * Mutable state (the in-memory cookie jar and the session-cache file) is
    threaded explicitly through `SessionState`; filesystem write failure is
    injected through the `writeFails` flag.
  * Python exceptions become the `PyError` sum; callback side effects are
    recorded as the list of objects the callback was invoked with, in order.
-/

namespace KismetRest

/-- JSON values, as decoded by the client. -/
inductive Json where
  | null
  | bool (b : Bool)
  | num (n : Int)
  | str (s : String)
  | arr (elts : List Json)
  | obj (fields : List (String × Json))
deriving Repr

/-- One raw line of a response body, abstracting the outcome of `json.loads`:
either it decodes to a JSON document or it is malformed. -/
inductive Line where
  | good (j : Json)
  | bad (raw : String)
deriving Repr

/-- Outcome of `json.loads` on a line: `some` parsed document or `none` on
a parse error. -/
def parseLine : Line → Option Json
  | Line.good j => some j
  | Line.bad _ => none

/-- A Python value that the loop variable `r` of `__process_json_stream` can
hold: initially the HTTP response object (with `.url` and `.status_code`
attributes), but after the first iteration the result of
`__process_json_object` (a decoded object, or `None` when a callback was
supplied), because the source reassigns `r` inside the loop. -/
inductive PyVal where
  | resp (url : String) (status_code : Int)
  | obj (j : Json)
  | none
deriving Repr

/-- Python exceptions raised by the module: the two `KismetConnectorException`
subclasses (each carrying a message and an `rcode`), plus the builtin
exceptions that can escape (`AttributeError` from accessing `.url` on a
non-response value, `IndexError` from `v[0]` on an empty list, and an
uncaught `requests` library error). -/
inductive PyError where
  | kismetLogin (message : String) (rcode : Int)
  | kismetRequest (message : String) (rcode : Int)
  | attributeError (attr : String)
  | indexError
  | requestsLib (message : String)
deriving Repr

/-- Embedding of `KismetConnector.__process_json_object(r, j, callback, args)`.
Returns the value the Python function returns (or the exception it raises)
paired with the list of callback invocations it performed.  On a parse
failure the source evaluates `r.url` and `r.status_code` to build the
`KismetRequestException`; when `r` is not a response object (which happens in
the stream loop after the first line) that attribute access itself raises
`AttributeError`.  The callback is invoked only after a successful parse, and
then the function returns `None`. -/
def processJsonObject (r : PyVal) (j : Line) (callback : Bool) :
    Except PyError PyVal × List Json :=
  match parseLine j with
  | some o =>
      if callback then (Except.ok PyVal.none, [o])
      else (Except.ok (PyVal.obj o), [])
  | Option.none =>
      match r with
      | PyVal.resp url status =>
          (Except.error (PyError.kismetRequest
            ("Unable to parse JSON on req " ++ url) status), [])
      | _ => (Except.error (PyError.attributeError "url"), [])

/-- Loop body of `KismetConnector.__process_json_stream`: walks the lines,
reassigning the loop variable `r` to each `__process_json_object` result, and
appends every per-line result to `ret` (the source guard `if ret is not None`
is always true because `ret` is a list).  Results: the value returned (or the
exception propagated) together with the callback-invocation trace. -/
def processJsonStreamLoop (r : PyVal) (lines : List Line) (callback : Bool)
    (ret : List PyVal) : Except PyError (List PyVal) × List Json :=
  match lines with
  | [] => (Except.ok ret, [])
  | line :: rest =>
      match processJsonObject r line callback with
      | (Except.error e, cs) => (Except.error e, cs)
      | (Except.ok r2, cs) =>
          let res := processJsonStreamLoop r2 rest callback (ret ++ [r2])
          (res.1, cs ++ res.2)

/-- Embedding of `KismetConnector.__process_json_stream(r, callback, args)`:
starts the loop with `ret = []` and `r` bound to the HTTP response. -/
def processJsonStream (r : PyVal) (lines : List Line) (callback : Bool) :
    Except PyError (List PyVal) × List Json :=
  processJsonStreamLoop r lines callback []

/-- Mutable client state threaded through the transport: the `KISMET` entry of
the in-memory `requests` cookie jar, the contents of the session-cache file
(`none` when the file is absent), and a flag injecting a filesystem failure
for writes to the cache file. -/
structure SessionState where
  kismetCookie : Option String
  cacheFile : Option String
  writeFails : Bool
deriving Repr

/-- A response body, abstracting the raw bytes by their two views the client
uses: `lines` is what `r.iter_lines()` yields, `whole` is `r.content` treated
as a single parse unit. -/
structure Body where
  lines : List Line
  whole : Line
deriving Repr

/-- Outcome of an HTTP request issued through the `requests` session: either
a network-level failure before any response exists (connection refused,
timeout, DNS failure — an exception out of `session.get`/`session.post`), or
a response with a status code, an optional new value for the `KISMET` session
cookie (from `Set-Cookie`), and a body. -/
inductive HttpOutcome where
  | netFail
  | resp (status : Int) (setCookie : Option String) (body : Body)
deriving Repr

/-- The `requests` library stores any session cookie a response carries into
the in-memory cookie jar, for every response it receives, before the client
code looks at the status code. -/
def applyResponseCookies (st : SessionState) (setCookie : Option String) :
    SessionState :=
  match setCookie with
  | Option.none => st
  | some c => { st with kismetCookie := some c }

/-- Embedding of `KismetConnector.__update_session()`: read the `KISMET`
cookie from the jar (a missing cookie is a `KeyError`, silently passed); when
it is non-empty, write it to the session-cache file; any failure of the write
is caught and only logged. -/
def updateSession (st : SessionState) : SessionState :=
  match st.kismetCookie with
  | Option.none => st
  | some c =>
      if c.length ≠ 0 then
        if st.writeFails then st else { st with cacheFile := some c }
      else st

/-- HTTP method of an outgoing request. -/
inductive Method where
  | get
  | post
deriving Repr

/-- The request a transport operation hands to `requests`: full URL (base URI
joined to the suffix with `/`), method, timeout in seconds, stream flag, and
for POSTs the object that is JSON-encoded into the single form field named
`json` (`none` encodes to the empty string). -/
structure HttpRequest where
  url : String
  method : Method
  timeout : Nat
  stream : Bool
  postdata : Option Json
deriving Repr

/-- Request constructed by `KismetConnector.__get_json_url`: a GET of
`"%s/%s" % (host_uri, url)` with `timeout=60`. -/
def getJsonRequest (hostUri url : String) (stream : Bool) : HttpRequest :=
  { url := hostUri ++ "/" ++ url, method := Method.get, timeout := 60,
    stream := stream, postdata := Option.none }

/-- Request constructed by `KismetConnector.__get_string_url`: a GET with
`timeout=60`. -/
def getStringRequest (hostUri url : String) : HttpRequest :=
  { url := hostUri ++ "/" ++ url, method := Method.get, timeout := 60,
    stream := false, postdata := Option.none }

/-- Request constructed by `KismetConnector.__post_json_url`: a POST of the
JSON-encoded `postdata` with `timeout=2`. -/
def postJsonRequest (hostUri url : String) (postdata : Option Json)
    (stream : Bool) : HttpRequest :=
  { url := hostUri ++ "/" ++ url, method := Method.post, timeout := 2,
    stream := stream, postdata := postdata }

/-- Request constructed by `KismetConnector.__post_string_url`: a POST of the
JSON-encoded `postdata` with `timeout=60`. -/
def postStringRequest (hostUri url : String) (postdata : Option Json) :
    HttpRequest :=
  { url := hostUri ++ "/" ++ url, method := Method.post, timeout := 60,
    stream := false, postdata := postdata }

/-- Request issued by `KismetConnector.login()` and `check_session()`: a GET
of `session/check_session` with `timeout=60`. -/
def checkSessionRequest (hostUri : String) : HttpRequest :=
  { url := hostUri ++ "/session/check_session", method := Method.get,
    timeout := 60, stream := false, postdata := Option.none }

/-- Result of a JSON transport call: the client state afterwards, the
callback-invocation trace, and either the exception raised or the
`(status_code, vector)` pair returned. -/
structure CallResult where
  state : SessionState
  calls : List Json
  outcome : Except PyError (Int × List PyVal)
deriving Repr

/-- Decoding step shared by `__get_json_url` and `__post_json_url` on the
200 path: in stream mode run the line-by-line walk; otherwise decode
`r.content` as a single object and wrap the per-object result in a
one-element list.  Returns the outcome and the callback trace. -/
def decodeBody (fullUrl : String) (status : Int) (body : Body)
    (callback stream : Bool) :
    Except PyError (Int × List PyVal) × List Json :=
  if stream then
    let res := processJsonStream (PyVal.resp fullUrl status) body.lines callback
    (res.1.map (fun v => (status, v)), res.2)
  else
    match processJsonObject (PyVal.resp fullUrl status) body.whole callback with
    | (Except.error e, cs) => (Except.error e, cs)
    | (Except.ok v, cs) => (Except.ok (status, [v]), cs)

/-- Shared tail of `__get_json_url` and `__post_json_url` after the request
was issued: check 401, then non-200, then update the session and decode the
body. -/
def classifyAndDecode (fullUrl : String) (st : SessionState)
    (loginMsg failMsg : String) (callback stream : Bool)
    (status : Int) (setCookie : Option String) (body : Body) : CallResult :=
  let st1 := applyResponseCookies st setCookie
  if status = 401 then
    { state := st1, calls := [],
      outcome := Except.error (PyError.kismetLogin loginMsg status) }
  else if status ≠ 200 then
    { state := st1, calls := [],
      outcome := Except.error (PyError.kismetRequest failMsg status) }
  else
    let dec := decodeBody fullUrl status body callback stream
    { state := updateSession st1, calls := dec.2, outcome := dec.1 }

/-- Embedding of `KismetConnector.__get_json_url(url, callback, cbargs,
stream)`: a network-level failure is converted to
`KismetRequestException("Failed to get object", -1)`; a 401 raises
`KismetLoginException`; any other non-200 raises `KismetRequestException`; on
200 the session is updated and the body decoded. -/
def getJsonUrl (hostUri : String) (st : SessionState) (url : String)
    (callback stream : Bool) (out : HttpOutcome) : CallResult :=
  match out with
  | HttpOutcome.netFail =>
      { state := st, calls := [],
        outcome := Except.error (PyError.kismetRequest "Failed to get object" (-1)) }
  | HttpOutcome.resp status setCookie body =>
      classifyAndDecode (hostUri ++ "/" ++ url) st
        ("Login required for " ++ url)
        ("Request failed " ++ url ++ " " ++ toString status)
        callback stream status setCookie body

/-- Embedding of `KismetConnector.__post_json_url(url, postdata, callback,
cbargs, stream)`: same classification as `__get_json_url`, with the POST
variants of the exception messages and sentinel `-1` on network failure. -/
def postJsonUrl (hostUri : String) (st : SessionState) (url : String)
    (_postdata : Option Json) (callback stream : Bool) (out : HttpOutcome) :
    CallResult :=
  match out with
  | HttpOutcome.netFail =>
      { state := st, calls := [],
        outcome := Except.error (PyError.kismetRequest ("Failed to POST to " ++ url) (-1)) }
  | HttpOutcome.resp status setCookie body =>
      classifyAndDecode (hostUri ++ "/" ++ url) st
        ("Login required for POST " ++ url)
        ("Request failed for POST " ++ url ++ " " ++ toString status)
        callback stream status setCookie body

/-- Embedding of `KismetConnector.login()`: issue the `check_session` GET
outside of any `try`, so a network-level failure propagates the raw
`requests` exception; on any non-200 status return `False`; on 200 update
the session and return `True`. -/
def login (st : SessionState) (out : HttpOutcome) :
    Except PyError (SessionState × Bool) :=
  match out with
  | HttpOutcome.netFail => Except.error (PyError.requestsLib "connection error")
  | HttpOutcome.resp status setCookie _ =>
      let st1 := applyResponseCookies st setCookie
      if status ≠ 200 then Except.ok (st1, false)
      else Except.ok (updateSession st1, true)

/-- Embedding of `KismetConnector.check_session()`: identical control flow to
`login()` (the source differs only in a debug print). -/
def check_session (st : SessionState) (out : HttpOutcome) :
    Except PyError (SessionState × Bool) :=
  match out with
  | HttpOutcome.netFail => Except.error (PyError.requestsLib "connection error")
  | HttpOutcome.resp status setCookie _ =>
      let st1 := applyResponseCookies st setCookie
      if status ≠ 200 then Except.ok (st1, false)
      else Except.ok (updateSession st1, true)

/-- Result of a single-entity endpoint: state, callback trace, and the
exception raised or the singular object returned. -/
structure EntityResult where
  state : SessionState
  calls : List Json
  outcome : Except PyError PyVal
deriving Repr

/-- Embedding of `KismetConnector.device_by_key(key, field, fields)` on the
`fields is None` path: GET `devices/by-key/{key}/device.json{field}` with
`stream=False` and no callback, then `return v[0]` (an `IndexError` when the
vector is empty). -/
def device_by_key (hostUri : String) (st : SessionState) (key : String)
    (field : Option String) (out : HttpOutcome) : EntityResult :=
  let fieldSuffix := match field with
    | some f => "/" ++ f
    | Option.none => ""
  let r := getJsonUrl hostUri st
    ("devices/by-key/" ++ key ++ "/device.json" ++ fieldSuffix) false false out
  match r.outcome with
  | Except.error e => { state := r.state, calls := r.calls, outcome := Except.error e }
  | Except.ok (_, v) =>
      match v with
      | [] => { state := r.state, calls := r.calls, outcome := Except.error PyError.indexError }
      | x :: _ => { state := r.state, calls := r.calls, outcome := Except.ok x }

/-- Keys of a JSON object body, in insertion order. -/
def cmdKeys (cmd : List (String × Json)) : List String :=
  cmd.map Prod.fst

/-- Request body built by `KismetConnector.smart_device_list`: `cmd = {}`,
then `cmd["fields"] = fields` when `fields is not None`, then
`cmd["regex"] = regex` when `regex is not None`. -/
def smart_device_list_cmd (fields regex : Option Json) :
    List (String × Json) :=
  (match fields with
    | some f => [("fields", f)]
    | Option.none => []) ++
  (match regex with
    | some rx => [("regex", rx)]
    | Option.none => [])

/-- Request body built by `KismetConnector.dot11_access_points`: `cmd = {}`,
then `last_time`, `regex` and `fields` inserted in that order, each only when
the corresponding argument is not `None`. -/
def dot11_access_points_cmd (ts : Option Int) (regex fields : Option Json) :
    List (String × Json) :=
  (match ts with
    | some t => [("last_time", Json.num t)]
    | Option.none => []) ++
  (match regex with
    | some rx => [("regex", rx)]
    | Option.none => []) ++
  (match fields with
    | some f => [("fields", f)]
    | Option.none => [])

/-- Whether a `PyVal` is the HTTP response object (has `.url` and
`.status_code` attributes). -/
def isResp : PyVal → Bool
  | PyVal.resp _ _ => true
  | _ => false

/- ------------------------------------------------------------------ -/
/- Helper lemmas about the streaming decoder loop.                    -/
/- ------------------------------------------------------------------ -/

/-- When every line parses, `filterMap parseLine` keeps one object per line. -/
theorem filterMap_parseLine_length (lines : List Line)
    (h : ∀ l ∈ lines, (parseLine l).isSome) :
    (lines.filterMap parseLine).length = lines.length := by
  induction lines with
  | nil => simp
  | cons line rest ih =>
      obtain ⟨o, ho⟩ := Option.isSome_iff_exists.mp (h line (List.mem_cons_self line rest))
      simp [List.filterMap_cons, ho,
        ih (fun l hl => h l (List.mem_cons_of_mem line hl))]

/-- With no callback and all lines valid, the loop appends each decoded
object to the accumulator and performs no callback invocation. -/
theorem streamLoop_good_noCb (lines : List Line) :
    ∀ (r : PyVal) (ret : List PyVal),
      (∀ l ∈ lines, (parseLine l).isSome) →
      processJsonStreamLoop r lines false ret =
        (Except.ok (ret ++ (lines.filterMap parseLine).map PyVal.obj), []) := by
  induction lines with
  | nil =>
      intro r ret _
      simp [processJsonStreamLoop]
  | cons line rest ih =>
      intro r ret hall
      obtain ⟨o, ho⟩ := Option.isSome_iff_exists.mp (hall line (List.mem_cons_self line rest))
      have hrest : ∀ l ∈ rest, (parseLine l).isSome :=
        fun l hl => hall l (List.mem_cons_of_mem line hl)
      simp [processJsonStreamLoop, processJsonObject, ho, ih _ _ hrest]

/-- With a callback and all lines valid, the loop appends one `None` per line
to the accumulator (the per-line result of the callback branch) and invokes
the callback once per line, in line order. -/
theorem streamLoop_good_cb (lines : List Line) :
    ∀ (r : PyVal) (ret : List PyVal),
      (∀ l ∈ lines, (parseLine l).isSome) →
      processJsonStreamLoop r lines true ret =
        (Except.ok (ret ++ List.replicate lines.length PyVal.none),
         lines.filterMap parseLine) := by
  induction lines with
  | nil =>
      intro r ret _
      simp [processJsonStreamLoop]
  | cons line rest ih =>
      intro r ret hall
      obtain ⟨o, ho⟩ := Option.isSome_iff_exists.mp (hall line (List.mem_cons_self line rest))
      have hrest : ∀ l ∈ rest, (parseLine l).isSome :=
        fun l hl => hall l (List.mem_cons_of_mem line hl)
      simp [processJsonStreamLoop, processJsonObject, ho, ih _ _ hrest,
        List.replicate_succ]

/-- Once the loop variable no longer holds the response object, hitting a
malformed line raises `AttributeError` (the source evaluates `r.url` on a
decoded object or on `None`); the callback trace covers exactly the valid
lines walked before the malformed one. -/
theorem streamLoop_bad_nonResp (pre : List Line) :
    ∀ (r : PyVal) (ret : List PyVal) (bline : Line) (post : List Line) (cb : Bool),
      isResp r = false →
      (∀ l ∈ pre, (parseLine l).isSome) →
      parseLine bline = Option.none →
      processJsonStreamLoop r (pre ++ bline :: post) cb ret =
        (Except.error (PyError.attributeError "url"),
         if cb then pre.filterMap parseLine else []) := by
  induction pre with
  | nil =>
      intro r ret bline post cb hr _ hb
      cases r with
      | resp u s => simp [isResp] at hr
      | obj j => cases cb <;> simp [processJsonStreamLoop, processJsonObject, hb]
      | none => cases cb <;> simp [processJsonStreamLoop, processJsonObject, hb]
  | cons line rest ih =>
      intro r ret bline post cb hr hall hb
      obtain ⟨o, ho⟩ := Option.isSome_iff_exists.mp (hall line (List.mem_cons_self line rest))
      have hrest : ∀ l ∈ rest, (parseLine l).isSome :=
        fun l hl => hall l (List.mem_cons_of_mem line hl)
      cases cb with
      | true =>
          have h2 := ih PyVal.none (ret ++ [PyVal.none]) bline post true rfl hrest hb
          simp [processJsonStreamLoop, processJsonObject, ho, h2,
            List.filterMap_cons]
      | false =>
          have h2 := ih (PyVal.obj o) (ret ++ [PyVal.obj o]) bline post false rfl hrest hb
          simp [processJsonStreamLoop, processJsonObject, ho, h2]

/- ------------------------------------------------------------------ -/
/- Claim theorems.                                                    -/
/- ------------------------------------------------------------------ -/

/-- Claim C1, evaluated at the failing input: an ekjson stream of one valid
line with a callback supplied.  The callback is invoked once (the trace is
the one decoded object), but the returned vector is `[None]`, not the empty
vector the claim (and the docstring of `__process_json_stream`) promises:
the guard `if ret is not None` in the source is always true, so the `None`
returned by the callback branch of `__process_json_object` is appended for
every line. -/
theorem c1_callback_vector_not_empty :
    processJsonStream
      (PyVal.resp "http://127.0.0.1:2501/devices/all_devices.ekjson" 200)
      [Line.good (Json.obj [])] true =
      (Except.ok [PyVal.none], [Json.obj []]) := rfl

/-- Claim C5: an ekjson stream decode of lines that all parse, with no
callback supplied, returns exactly one decoded object per line, in line
order, and the callback trace is empty. -/
theorem c5_no_callback_materializes_all (url : String) (status : Int)
    (lines : List Line)
    (hall : ∀ l ∈ lines, (parseLine l).isSome) :
    processJsonStream (PyVal.resp url status) lines false =
      (Except.ok ((lines.filterMap parseLine).map PyVal.obj), []) ∧
    ((lines.filterMap parseLine).map PyVal.obj).length = lines.length := by
  constructor
  · have h1 := streamLoop_good_noCb lines (PyVal.resp url status) [] hall
    simpa [processJsonStream] using h1
  · simpa using filterMap_parseLine_length lines hall

/-- Witness for C5 at a concrete two-line stream. -/
theorem c5_no_callback_materializes_all_witness :
    processJsonStream (PyVal.resp "u" 200)
      [Line.good Json.null, Line.good (Json.str "a")] false =
      (Except.ok [PyVal.obj Json.null, PyVal.obj (Json.str "a")], []) := by
  have h := c5_no_callback_materializes_all "u" 200
    [Line.good Json.null, Line.good (Json.str "a")]
    (by intro l hl; simp at hl; rcases hl with rfl | rfl <;> rfl)
  simpa [parseLine] using h.1

/-- Counterexample to claim C2: a stream whose second line is malformed does
not raise the claimed malformed-response exception at all — because the
source reassigned the loop variable `r` to the previous parse result, the
attribute access `r.url` raises `AttributeError` instead, so the raised
exception carries neither the request URL nor the offending raw bytes. -/
theorem c2_second_line_malformed_attribute_error :
    (processJsonStream
      (PyVal.resp "http://127.0.0.1:2501/devices/all_devices.ekjson" 200)
      [Line.good (Json.obj []), Line.bad "not json"] false).1 =
      Except.error (PyError.attributeError "url") := rfl

/-- Claim C2 as amended: a malformed line aborts the stream with an
exception, so no partial sequence is returned, and the callback trace covers
exactly the valid lines strictly before the malformed one; the exception is
`KismetRequestException` carrying the request URL and the HTTP status code
(not the raw bytes) when the malformed line is the first line, and an
`AttributeError` (from `r.url` after the loop variable was overwritten)
otherwise. -/
theorem c2_malformed_line_aborts (url : String) (status : Int)
    (pre : List Line) (bline : Line) (post : List Line) (cb : Bool)
    (hall : ∀ l ∈ pre, (parseLine l).isSome)
    (hb : parseLine bline = Option.none) :
    processJsonStream (PyVal.resp url status) (pre ++ bline :: post) cb =
      (Except.error
        (if pre.isEmpty then
          PyError.kismetRequest ("Unable to parse JSON on req " ++ url) status
        else PyError.attributeError "url"),
       if cb then pre.filterMap parseLine else []) := by
  cases pre with
  | nil =>
      cases cb <;>
        simp [processJsonStream, processJsonStreamLoop, processJsonObject, hb]
  | cons line rest =>
      obtain ⟨o, ho⟩ := Option.isSome_iff_exists.mp (hall line (List.mem_cons_self line rest))
      have hrest : ∀ l ∈ rest, (parseLine l).isSome :=
        fun l hl => hall l (List.mem_cons_of_mem line hl)
      cases cb with
      | true =>
          have h2 := streamLoop_bad_nonResp rest PyVal.none [PyVal.none]
            bline post true rfl hrest hb
          simp [processJsonStream, processJsonStreamLoop, processJsonObject,
            ho, h2, List.filterMap_cons]
      | false =>
          have h2 := streamLoop_bad_nonResp rest (PyVal.obj o) [PyVal.obj o]
            bline post false rfl hrest hb
          simp [processJsonStream, processJsonStreamLoop, processJsonObject,
            ho, h2]

/-- Witness for the amended C2: one valid line, then a malformed line, with a
callback: the decode aborts with `AttributeError` and the callback was
invoked exactly once, for the line before the malformed one. -/
theorem c2_malformed_line_aborts_witness :
    processJsonStream (PyVal.resp "u" 200)
      ([Line.good Json.null] ++ Line.bad "x" :: []) true =
      (Except.error (PyError.attributeError "url"), [Json.null]) := by
  have h := c2_malformed_line_aborts "u" 200 [Line.good Json.null]
    (Line.bad "x") [] true
    (by intro l hl; simp at hl; subst hl; rfl)
    rfl
  simpa [parseLine] using h

/-- Counterexample to claim C3: the JSON POST transport operation — used by
the parameterized device reads such as `smart_device_list`, which fetch
`devices.ekjson` — applies a timeout of 2 seconds, not the claimed 60
seconds for reads. -/
theorem c3_json_post_read_timeout_is_two :
    (postJsonRequest "http://127.0.0.1:2501" "devices/last-time/0/devices.ekjson"
      (some (Json.obj [])) true).timeout = 2 ∧ (2 : Nat) ≠ 60 := by
  exact ⟨rfl, by decide⟩

/-- Claim C3 as amended: the GET transports, the `check_session` request of
`login()`/`check_session()`, and the string command POST all apply a
60-second timeout, while the JSON POST transport (parameterized ekjson
reads) applies a 2-second timeout. -/
theorem c3_transport_timeouts (hostUri url : String) (d : Option Json)
    (sm : Bool) :
    (getJsonRequest hostUri url sm).timeout = 60 ∧
    (getStringRequest hostUri url).timeout = 60 ∧
    (checkSessionRequest hostUri).timeout = 60 ∧
    (postStringRequest hostUri url d).timeout = 60 ∧
    (postJsonRequest hostUri url d sm).timeout = 2 :=
  ⟨rfl, rfl, rfl, rfl, rfl⟩

/-- Counterexample to claim C4: a 401 response that itself carries a new
`KISMET` session cookie does modify the in-memory cookie: the `requests`
library stores response cookies into the jar before the client code checks
the status, so after the call the jar holds the new value even though the
call raised the login exception.  (The starting state had no cookie.) -/
theorem c4_cookie_jar_mutated_on_401 :
    (getJsonUrl "http://h" ⟨Option.none, Option.none, false⟩ "u" false true
      (HttpOutcome.resp 401 (some "evil") ⟨[], Line.bad ""⟩)).state.kismetCookie =
        some "evil" ∧
    (SessionState.mk Option.none Option.none false).kismetCookie = Option.none :=
  ⟨rfl, rfl⟩

/-- Claim C4 as amended: on any 401 response, `__get_json_url` raises
`KismetLoginException` carrying the request URL and status 401 (and
`__post_json_url` raises its POST variant), no callback is invoked, the
session-cache file is never touched, and the session state is completely
unmodified whenever the 401 response did not itself set a new session
cookie. -/
theorem c4_login_required_cache_untouched (hostUri : String)
    (st : SessionState) (url : String) (cb sm : Bool)
    (setCookie : Option String) (body : Body) :
    (getJsonUrl hostUri st url cb sm (HttpOutcome.resp 401 setCookie body)).outcome =
      Except.error (PyError.kismetLogin ("Login required for " ++ url) 401) ∧
    (postJsonUrl hostUri st url Option.none cb sm
        (HttpOutcome.resp 401 setCookie body)).outcome =
      Except.error (PyError.kismetLogin ("Login required for POST " ++ url) 401) ∧
    (getJsonUrl hostUri st url cb sm
        (HttpOutcome.resp 401 setCookie body)).state.cacheFile = st.cacheFile ∧
    (getJsonUrl hostUri st url cb sm
        (HttpOutcome.resp 401 setCookie body)).calls = [] ∧
    (setCookie = Option.none →
      (getJsonUrl hostUri st url cb sm
        (HttpOutcome.resp 401 setCookie body)).state = st) := by
  refine ⟨?_, ?_, ?_, ?_, ?_⟩ <;>
    cases setCookie <;>
      simp [getJsonUrl, postJsonUrl, classifyAndDecode, applyResponseCookies]

/-- Witness for the amended C4 at a concrete state and cookie-free 401. -/
theorem c4_login_required_cache_untouched_witness :
    (getJsonUrl "h" ⟨some "c", some "c", false⟩ "u" false false
      (HttpOutcome.resp 401 Option.none ⟨[], Line.bad ""⟩)).state =
      ⟨some "c", some "c", false⟩ := by
  have h := c4_login_required_cache_untouched "h" ⟨some "c", some "c", false⟩
    "u" false false Option.none ⟨[], Line.bad ""⟩
  exact h.2.2.2.2 rfl

/-- Claim C6: in non-stream mode a successful decode always yields a
one-element vector (`[None]` when a callback consumed the object, otherwise
the single decoded object), and the single-entity endpoint `device_by_key`
returns the decoded object itself, popped out of that vector. -/
theorem c6_nonstream_singleton_and_device_by_key (hostUri : String)
    (st : SessionState) (url key : String) (field : Option String) (cb : Bool)
    (setCookie : Option String) (body : Body) (j : Json)
    (hwhole : parseLine body.whole = some j) :
    (getJsonUrl hostUri st url cb false (HttpOutcome.resp 200 setCookie body)).outcome =
      Except.ok (200, [if cb then PyVal.none else PyVal.obj j]) ∧
    (device_by_key hostUri st key field (HttpOutcome.resp 200 setCookie body)).outcome =
      Except.ok (PyVal.obj j) := by
  constructor
  · cases cb <;>
      simp [getJsonUrl, classifyAndDecode, decodeBody, processJsonObject, hwhole]
  · simp [device_by_key, getJsonUrl, classifyAndDecode, decodeBody,
      processJsonObject, hwhole]

/-- Witness for C6 at a concrete one-object response body. -/
theorem c6_nonstream_singleton_and_device_by_key_witness :
    (device_by_key "h" ⟨Option.none, Option.none, false⟩ "k" Option.none
      (HttpOutcome.resp 200 Option.none
        ⟨[Line.good (Json.num 7)], Line.good (Json.num 7)⟩)).outcome =
      Except.ok (PyVal.obj (Json.num 7)) := by
  have h := c6_nonstream_singleton_and_device_by_key "h"
    ⟨Option.none, Option.none, false⟩ "u" "k" Option.none false Option.none
    ⟨[Line.good (Json.num 7)], Line.good (Json.num 7)⟩ (Json.num 7) rfl
  exact h.2

/-- Claim C7: a network-level failure (no HTTP response at all) is converted
by both JSON transports into `KismetRequestException` with the sentinel
status `-1`, and `-1` is distinct from every HTTP status code (all of which
lie in 100..599). -/
theorem c7_network_failure_sentinel (hostUri : String) (st : SessionState)
    (url : String) (pd : Option Json) (cb sm : Bool) :
    (getJsonUrl hostUri st url cb sm HttpOutcome.netFail).outcome =
      Except.error (PyError.kismetRequest "Failed to get object" (-1)) ∧
    (postJsonUrl hostUri st url pd cb sm HttpOutcome.netFail).outcome =
      Except.error (PyError.kismetRequest ("Failed to POST to " ++ url) (-1)) ∧
    ∀ s : Int, 100 ≤ s → s ≤ 599 → (-1 : Int) ≠ s := by
  refine ⟨rfl, rfl, ?_⟩
  intro s h1 _ h3
  omega

/-- Witness for C7 at a concrete call and the concrete HTTP status 404. -/
theorem c7_network_failure_sentinel_witness :
    (getJsonUrl "h" ⟨Option.none, Option.none, false⟩ "u" false true
      HttpOutcome.netFail).outcome =
      Except.error (PyError.kismetRequest "Failed to get object" (-1)) ∧
    (-1 : Int) ≠ 404 := by
  have h := c7_network_failure_sentinel "h" ⟨Option.none, Option.none, false⟩
    "u" Option.none false true
  exact ⟨h.1, h.2.2 404 (by norm_num) (by norm_num)⟩

/-- Claim C8: the query bodies built by `smart_device_list` and
`dot11_access_points` contain the key `fields` iff the fields argument is
non-null and the key `regex` iff the regex argument is non-null; a null
argument contributes no key at all. -/
theorem c8_query_body_keys (fields regex : Option Json) (ts : Option Int) :
    ("fields" ∈ cmdKeys (smart_device_list_cmd fields regex) ↔
      fields.isSome = true) ∧
    ("regex" ∈ cmdKeys (smart_device_list_cmd fields regex) ↔
      regex.isSome = true) ∧
    ("fields" ∈ cmdKeys (dot11_access_points_cmd ts regex fields) ↔
      fields.isSome = true) ∧
    ("regex" ∈ cmdKeys (dot11_access_points_cmd ts regex fields) ↔
      regex.isSome = true) := by
  cases fields <;> cases regex <;> cases ts <;>
    simp [smart_device_list_cmd, dot11_access_points_cmd, cmdKeys]

/-- Claim C9: on a 200 response carrying a new non-empty session cookie, the
state returned alongside the body is the session store updated from the
refreshed cookie jar; when the filesystem write succeeds the cache file then
contains exactly the new cookie value; and a failing write changes neither
the outcome delivered to the caller nor the cache file. -/
theorem c9_session_persisted_on_200 (hostUri : String) (st : SessionState)
    (url : String) (cb sm : Bool) (c : String) (body : Body)
    (hc : c.length ≠ 0) :
    (getJsonUrl hostUri st url cb sm (HttpOutcome.resp 200 (some c) body)).state =
      updateSession (applyResponseCookies st (some c)) ∧
    (st.writeFails = false →
      (getJsonUrl hostUri st url cb sm
        (HttpOutcome.resp 200 (some c) body)).state.cacheFile = some c) ∧
    (getJsonUrl hostUri { st with writeFails := true } url cb sm
        (HttpOutcome.resp 200 (some c) body)).outcome =
      (getJsonUrl hostUri st url cb sm
        (HttpOutcome.resp 200 (some c) body)).outcome ∧
    (getJsonUrl hostUri { st with writeFails := true } url cb sm
        (HttpOutcome.resp 200 (some c) body)).state.cacheFile = st.cacheFile := by
  refine ⟨?_, ?_, ?_, ?_⟩
  · simp [getJsonUrl, classifyAndDecode]
  · intro hwf
    simp [getJsonUrl, classifyAndDecode, applyResponseCookies, updateSession,
      hc, hwf]
  · simp [getJsonUrl, classifyAndDecode]
  · simp [getJsonUrl, classifyAndDecode, applyResponseCookies, updateSession, hc]

/-- Witness for C9 at a concrete empty starting state and cookie `K`. -/
theorem c9_session_persisted_on_200_witness :
    (getJsonUrl "h" ⟨Option.none, Option.none, false⟩ "u" false true
      (HttpOutcome.resp 200 (some "K") ⟨[], Line.bad ""⟩)).state.cacheFile =
      some "K" := by
  have h := c9_session_persisted_on_200 "h" ⟨Option.none, Option.none, false⟩
    "u" false true "K" ⟨[], Line.bad ""⟩ (by decide)
  exact h.2.1 rfl

/-- Claim C10: `login()` and `check_session()` never raise on an HTTP
response — they return `False` for every status other than 200 (including
401) and `True` exactly when the status is 200 — while `__get_json_url`
raises an exception for every non-200 status. -/
theorem c10_login_check_session_never_raise (st : SessionState) (status : Int)
    (setCookie : Option String) (body : Body) :
    login st (HttpOutcome.resp status setCookie body) =
      Except.ok
        (if status = 200 then updateSession (applyResponseCookies st setCookie)
         else applyResponseCookies st setCookie,
         decide (status = 200)) ∧
    check_session st (HttpOutcome.resp status setCookie body) =
      Except.ok
        (if status = 200 then updateSession (applyResponseCookies st setCookie)
         else applyResponseCookies st setCookie,
         decide (status = 200)) ∧
    (status ≠ 200 → ∀ (hostUri url : String) (cb sm : Bool),
      ∃ e, (getJsonUrl hostUri st url cb sm
        (HttpOutcome.resp status setCookie body)).outcome = Except.error e) := by
  refine ⟨?_, ?_, ?_⟩
  · by_cases h : status = 200 <;> simp [login, h]
  · by_cases h : status = 200 <;> simp [check_session, h]
  · intro hne hostUri url cb sm
    by_cases h401 : status = 401
    · refine ⟨PyError.kismetLogin ("Login required for " ++ url) status, ?_⟩
      simp [getJsonUrl, classifyAndDecode, h401]
    · refine ⟨PyError.kismetRequest
        ("Request failed " ++ url ++ " " ++ toString status) status, ?_⟩
      simp [getJsonUrl, classifyAndDecode, h401, hne]

/-- Witness for C10 at a concrete 401 response: `login` returns `False`
without raising, while `__get_json_url` raises. -/
theorem c10_login_check_session_never_raise_witness :
    login ⟨Option.none, Option.none, false⟩
      (HttpOutcome.resp 401 Option.none ⟨[], Line.bad ""⟩) =
      Except.ok (⟨Option.none, Option.none, false⟩, false) ∧
    ∃ e, (getJsonUrl "h" ⟨Option.none, Option.none, false⟩ "u" false true
      (HttpOutcome.resp 401 Option.none ⟨[], Line.bad ""⟩)).outcome =
      Except.error e := by
  have h := c10_login_check_session_never_raise
    ⟨Option.none, Option.none, false⟩ 401 Option.none ⟨[], Line.bad ""⟩
  constructor
  · simpa [applyResponseCookies] using h.1
  · exact h.2.2 (by decide) "h" "u" false true

end KismetRest
